import Mathlib

/-!
Shallow embedding of the `treasure-chest` dependency-injection container
(`src/Container.ts`, `src/Scope.ts`, `src/Lazy.ts`).

Modelling conventions:
  * Instances are identified by natural numbers; a factory that creates a
    fresh object is modelled by `FExpr.fresh`, which draws the next id from
    the container's `freshCounter`.  Reference identity of instances in
    TypeScript is therefore equality of the drawn `Nat`.
  * User factories are deep-embedded as `FExpr` syntax and interpreted with
    an explicit fuel parameter; running out of fuel returns an error without
    touching the container, so it behaves like a factory that throws.
  * Thrown `Error(msg)` values are modelled as `Except.error msg`.
  * A JavaScript `Map` is modelled as an association list whose `set`
    operation keeps insertion order (replace in place, else append), which
    matches `Map` iteration order.
  * Condition callbacks `(c) => bool` are modelled as constant booleans
    (`Option Bool`); dispose callbacks `() => void` as their outcome
    (`Except String Unit`).
  * The field `calls` counts how often `binding.factory(this)` is invoked;
    it is instrumentation used to state "the factory is invoked exactly
    once" and does not influence control flow.
-/

/-- Lifecycle tags, from `types.ts`. -/
inductive Lifecycle where
  | transient
  | singleton
  | scoped
deriving DecidableEq, Repr

/-- Deep-embedded factory bodies.  `resolveKey k` models a factory
`(c) => c.resolve(k)`; `fromComposition k` models the proxy factory
`(c) => c.resolveFromComposition(k)` installed by `Container.compose`;
`failE msg` models a factory that throws. -/
inductive FExpr where
  | const (v : Nat)
  | fresh
  | failE (msg : String)
  | resolveKey (k : String)
  | fromComposition (k : String)
deriving DecidableEq, Repr

instance exceptDecEq {ε α : Type} [DecidableEq ε] [DecidableEq α] :
    DecidableEq (Except ε α) := fun a b =>
  match a, b with
  | Except.ok x, Except.ok y =>
    if h : x = y then isTrue (by rw [h])
    else isFalse (by intro hh; cases hh; exact h rfl)
  | Except.ok _, Except.error _ => isFalse (by intro hh; cases hh)
  | Except.error _, Except.ok _ => isFalse (by intro hh; cases hh)
  | Except.error e, Except.error f =>
    if h : e = f then isTrue (by rw [h])
    else isFalse (by intro hh; cases hh; exact h rfl)

/-- A binding record, from `types.ts` (`Binding<T>`). -/
structure Binding where
  key : String
  factory : FExpr
  lifecycle : Lifecycle
  condition : Option Bool
  context : Option String
  lazy : Bool
  dispose : Option (Except String Unit)
deriving DecidableEq, Repr

/-- Values stored in instance maps and returned by `resolve`: plain
instances (`n`) or `Lazy` wrapper objects created by `resolveLazy`
(`lz f` is a freshly constructed, uninitialized wrapper around factory
`f`). -/
inductive Val where
  | n (v : Nat)
  | lz (factory : FExpr)
deriving DecidableEq, Repr

/-- Association-list lookup: first entry wins, like `Map.get`. -/
def lookupA {α : Type} : List (String × α) → String → Option α
  | [], _ => none
  | (k, v) :: rest, key => if k = key then some v else lookupA rest key

/-- Association-list update with `Map.set` semantics: replace the existing
entry in place, otherwise append at the end (preserving iteration order). -/
def setA {α : Type} : List (String × α) → String → α → List (String × α)
  | [], key, v => [(key, v)]
  | (k, w) :: rest, key, v =>
    if k = key then (key, v) :: rest else (k, w) :: setA rest key v

/-- JavaScript `o || dflt` on an optional string: `undefined` and the empty
string are falsy. -/
def jsOr (o : Option String) (dflt : String) : String :=
  match o with
  | some s => if s = "" then dflt else s
  | none => dflt

/-- `[...new Set(l)]`: de-duplicate keeping the first occurrence. -/
def dedupFirst (l : List String) : List String :=
  l.foldl (fun acc x => if acc.contains x then acc else acc ++ [x]) []

/-- A `Scope` (`Scope.ts`): instance map plus queued dispose callbacks. -/
structure Scope where
  instances : List (String × Val)
  disposables : List (Except String Unit)
deriving DecidableEq, Repr

/-- The empty scope produced by `new Scope()`. -/
def Scope.empty : Scope := ⟨[], []⟩

/-- `Scope.get`. -/
def Scope.get (s : Scope) (key : String) : Option Val :=
  lookupA s.instances key

/-- `Scope.has`. -/
def Scope.has (s : Scope) (key : String) : Bool :=
  (lookupA s.instances key).isSome

/-- `Scope.isDisposable`: `typeof value === 'object' && typeof value.dispose
=== 'function'`.  The representable values are numbers (not objects) and
`Lazy` wrappers (objects with no `dispose` method), so this is always
`false` for values of the model. -/
def Scope.isDisposableVal : Val → Bool
  | _ => false

/-- `Scope.set(key, value, dispose?)`: store the instance; auto-detect a
dispose capability when no explicit callback was given; queue the callback
if any. -/
def Scope.set (s : Scope) (key : String) (v : Val)
    (dispose : Option (Except String Unit)) : Scope :=
  let inst := setA s.instances key v
  let d := match dispose with
    | some fn => some fn
    | none => if Scope.isDisposableVal v then some (Except.ok ()) else none
  match d with
  | some fn => ⟨inst, s.disposables ++ [fn]⟩
  | none => ⟨inst, s.disposables⟩

/-- Run the queued dispose callbacks in registration order, stopping at the
first failure (the `for ... await` loop in `Scope.dispose`). -/
def runDisposables : List (Except String Unit) → Except String Unit
  | [] => Except.ok ()
  | d :: rest =>
    match d with
    | Except.error e => Except.error e
    | Except.ok _ => runDisposables rest

/-- `Scope.dispose()`: run every callback, then clear instances and
callbacks.  If a callback throws, the loop exits early and the scope is not
cleared. -/
def Scope.dispose (s : Scope) : Except String Unit × Scope :=
  match runDisposables s.disposables with
  | Except.error e => (Except.error e, s)
  | Except.ok _ => (Except.ok (), ⟨[], []⟩)

/-- Non-recursive per-container state (`Container`'s scalar fields). -/
structure ContainerCore where
  bindings : List (String × List Binding)
  instances : List (String × Val)
  aliases : List (String × String)
  bindingCache : List (String × Binding)
  currentContext : Option String
  currentScope : Option Scope
  resolutionStack : List String
  freshCounter : Nat
  calls : Nat
deriving DecidableEq, Repr

/-- The state of `new Container()`. -/
def ContainerCore.empty : ContainerCore :=
  ⟨[], [], [], [], none, none, [], 0, 0⟩

/-- A container: its scalar state plus the recursive references `parent`
and `composedContainers`. -/
inductive Container where
  | node (core : ContainerCore) (parent : Option Container)
      (composedContainers : List Container)

/-- Scalar state of a container. -/
def Container.core : Container → ContainerCore
  | .node co _ _ => co

/-- Parent reference. -/
def Container.parent : Container → Option Container
  | .node _ p _ => p

/-- Composed containers list. -/
def Container.composedContainers : Container → List Container
  | .node _ _ cs => cs

/-- Replace the scalar state, keeping parent and composed containers. -/
def Container.withCore (c : Container) (co : ContainerCore) : Container :=
  .node co c.parent c.composedContainers

/-- `this.currentContext = v`. -/
def Container.setContext (c : Container) (v : Option String) : Container :=
  c.withCore { c.core with currentContext := v }

/-- `this.resolutionStack.push(k)`. -/
def Container.pushStack (c : Container) (k : String) : Container :=
  c.withCore { c.core with resolutionStack := c.core.resolutionStack ++ [k] }

/-- The `finally` block of `resolve`: `this.resolutionStack.pop()` followed
by `this.currentContext = prevContext`. -/
def Container.popRestore (c : Container) (prev : Option String) : Container :=
  c.withCore { c.core with
    resolutionStack := c.core.resolutionStack.dropLast,
    currentContext := prev }

/-- Instrumentation: count one factory invocation. -/
def Container.bumpCalls (c : Container) : Container :=
  c.withCore { c.core with calls := c.core.calls + 1 }

/-- Replace the singleton/lazy instance store. -/
def Container.setInstances (c : Container) (m : List (String × Val)) : Container :=
  c.withCore { c.core with instances := m }

/-- Replace the current scope reference. -/
def Container.setScope (c : Container) (v : Option Scope) : Container :=
  c.withCore { c.core with currentScope := v }

/-- Draw a fresh instance id (models `new SomeObject()` identity). -/
def Container.bumpFresh (c : Container) : Container :=
  c.withCore { c.core with freshCounter := c.core.freshCounter + 1 }

/-- `new Container()`. -/
def Container.empty : Container := .node ContainerCore.empty none []

/-- `createChild()`: a fresh container whose parent is `c`. -/
def Container.createChild (c : Container) : Container :=
  .node ContainerCore.empty (some c) []

/-- `bind(key, factory, condition?)`: append a transient binding and clear
the binding-selection cache. -/
def Container.bind (c : Container) (key : String) (factory : FExpr)
    (condition : Option Bool) : Container :=
  let existing := (lookupA c.core.bindings key).getD []
  let b : Binding := ⟨key, factory, Lifecycle.transient, condition, none, false, none⟩
  c.withCore { c.core with
    bindings := setA c.core.bindings key (existing ++ [b]),
    bindingCache := [] }

/-- `singleton(key, factory, condition?)`. -/
def Container.singleton (c : Container) (key : String) (factory : FExpr)
    (condition : Option Bool) : Container :=
  let existing := (lookupA c.core.bindings key).getD []
  let b : Binding := ⟨key, factory, Lifecycle.singleton, condition, none, false, none⟩
  c.withCore { c.core with
    bindings := setA c.core.bindings key (existing ++ [b]),
    bindingCache := [] }

/-- `scoped(key, factory, dispose?)`. -/
def Container.scoped (c : Container) (key : String) (factory : FExpr)
    (dispose : Option (Except String Unit)) : Container :=
  let existing := (lookupA c.core.bindings key).getD []
  let b : Binding := ⟨key, factory, Lifecycle.scoped, none, none, false, dispose⟩
  c.withCore { c.core with
    bindings := setA c.core.bindings key (existing ++ [b]),
    bindingCache := [] }

/-- `lazy(key, factory, lifecycle = 'singleton')`. -/
def Container.lazy (c : Container) (key : String) (factory : FExpr)
    (lifecycle : Lifecycle) : Container :=
  let existing := (lookupA c.core.bindings key).getD []
  let b : Binding := ⟨key, factory, lifecycle, none, none, true, none⟩
  c.withCore { c.core with
    bindings := setA c.core.bindings key (existing ++ [b]),
    bindingCache := [] }

/-- `alias(aliasKey, originalKey)`: record the mapping.  Note: the source
does not clear the binding-selection cache here. -/
def Container.alias (c : Container) (aliasKey originalKey : String) : Container :=
  c.withCore { c.core with aliases := setA c.core.aliases aliasKey originalKey }

/-- `when(context).needs(depKey).give(factory)`: append a transient binding
carrying the context, and clear the binding-selection cache. -/
def Container.whenNeedsGive (c : Container) (context : String)
    (depKey : String) (factory : FExpr) : Container :=
  let existing := (lookupA c.core.bindings depKey).getD []
  let b : Binding := ⟨depKey, factory, Lifecycle.transient, none, some context, false, none⟩
  c.withCore { c.core with
    bindings := setA c.core.bindings depKey (existing ++ [b]),
    bindingCache := [] }

/-- `createScope()`: attach a fresh scope as current and return it. -/
def Container.createScope (c : Container) : Scope × Container :=
  let scope := Scope.empty
  (scope, c.withCore { c.core with currentScope := some scope })

/-- `scope.dispose()` performed on the scope currently attached to `c`
(the scope is shared by reference in the source, so its mutation is
visible through `c.currentScope`). -/
def Container.disposeCurrentScope (c : Container) : Except String Unit × Container :=
  match c.core.currentScope with
  | none => (Except.ok (), c)
  | some s =>
    let (r, s2) := s.dispose
    (r, c.withCore { c.core with currentScope := some s2 })

/-- Condition evaluation `!b.condition || b.condition(this)` (conditions
are modelled as constant booleans). -/
def condOk (b : Binding) : Bool :=
  match b.condition with
  | none => true
  | some r => r

/-- First element of the list satisfying the predicate (`Array.find`). -/
def findFirst (p : Binding → Bool) : List Binding → Option Binding
  | [] => none
  | b :: rest => if p b then some b else findFirst p rest

/-- `findBinding(key, context?)`: alias hop, cache probe, priority
selection (context+condition, then unconditional default, then first
binding), cache fill for unconditional matches, parent delegation with the
original `key`. -/
def Container.findBinding : Container → String → Option String →
    Option Binding × Container
  | .node core parent composed, key, context =>
    let realKey := jsOr (lookupA core.aliases key) key
    let cacheKey := match context with
      | some s => if s = "" then realKey else realKey ++ "::" ++ s
      | none => realKey
    match lookupA core.bindingCache cacheKey with
    | some b => (some b, .node core parent composed)
    | none =>
      let bs := (lookupA core.bindings realKey).getD []
      if bs.isEmpty then
        match parent with
        | some p =>
          let (r, p2) := p.findBinding key context
          (r, .node core (some p2) composed)
        | none => (none, .node core parent composed)
      else
        let m := ((findFirst
            (fun b => decide (b.context = context) && condOk b) bs).orElse
          (fun _ => findFirst
            (fun b => decide (b.context = none) && condOk b) bs)).orElse
          (fun _ => bs.head?)
        match m with
        | some b =>
          if b.condition = none then
            (some b, .node { core with
              bindingCache := setA core.bindingCache cacheKey b } parent composed)
          else (some b, .node core parent composed)
        | none => (none, .node core parent composed)

/-- `has(key)`: a binding exists (the probe may fill binding caches, hence
the updated container). -/
def Container.has (c : Container) (key : String) : Bool × Container :=
  let (b, c2) := c.findBinding key none
  (b.isSome, c2)

/-- `keys()`: de-duplicated union of local keys and the parent's keys. -/
def Container.keys : Container → List String
  | .node core parent _ =>
    let ownKeys := core.bindings.map Prod.fst
    let parentKeys := match parent with
      | some p => p.keys
      | none => []
    dedupFirst (ownKeys ++ parentKeys)

/-- `resolveLazy(binding, cacheKey)`: return the cached wrapper if present,
otherwise build a fresh wrapper around the factory and cache it only for
singleton lifecycles. -/
def Container.resolveLazy (c : Container) (b : Binding) (cacheKey : String) :
    Container × Except String Val :=
  let fullCacheKey := "lazy::" ++ cacheKey
  match lookupA c.core.instances fullCacheKey with
  | some v => (c, Except.ok v)
  | none =>
    let lz := Val.lz b.factory
    if b.lifecycle = Lifecycle.singleton then
      (c.setInstances (setA c.core.instances fullCacheKey lz), Except.ok lz)
    else (c, Except.ok lz)

mutual

/-- `resolve(key, context?)`: alias hop, circular-dependency check against
the resolution stack, context override, binding selection, push, lifecycle
dispatch, and the `finally` block that pops the stack and restores the
previous context.  Note that the missing-binding `throw` happens after the
context was overridden but before the `try`/`finally`, exactly as in the
source. -/
def resolve : Nat → Container → String → Option String →
    Container × Except String Val
  | 0, c, _, _ => (c, Except.error "Out of fuel")
  | fuel+1, c, key, context =>
    let realKey := jsOr (lookupA c.core.aliases key) key
    if c.core.resolutionStack.contains realKey then
      (c, Except.error ("Circular dependency detected: " ++
        String.intercalate " -> " (c.core.resolutionStack ++ [realKey])))
    else
      let prevContext := c.core.currentContext
      match (c.setContext (some (jsOr context key))).findBinding key
          (some (jsOr context key)) with
      | (none, c2) => (c2, Except.error ("No binding found for key: " ++ realKey))
      | (some b, c2) =>
        match dispatchLifecycle fuel (c2.pushStack realKey) b realKey with
        | (c4, res) => (c4.popRestore prevContext, res)

/-- The body of the `try` block in `resolve`: the lazy check followed by
the lifecycle `switch` (`default` falls through to transient). -/
def dispatchLifecycle : Nat → Container → Binding → String →
    Container × Except String Val
  | 0, c, _, _ => (c, Except.error "Out of fuel")
  | fuel+1, c, b, realKey =>
    if b.lazy then c.resolveLazy b realKey
    else match b.lifecycle with
      | Lifecycle.singleton => resolveSingleton fuel c b realKey
      | Lifecycle.scoped => resolveScoped fuel c b realKey
      | Lifecycle.transient => resolveTransient fuel c b

/-- `binding.factory(this)`: bump the instrumentation counter and interpret
the factory body. -/
def invokeFactory : Nat → Container → Binding → Container × Except String Val
  | 0, c, _ => (c, Except.error "Out of fuel")
  | fuel+1, c, b => evalFExpr fuel c.bumpCalls b.factory

/-- `resolveTransient(binding)`. -/
def resolveTransient : Nat → Container → Binding → Container × Except String Val
  | 0, c, _ => (c, Except.error "Out of fuel")
  | fuel+1, c, b => invokeFactory fuel c b

/-- `resolveSingleton(binding, cacheKey)`: instance-store probe keyed by
`(realKey, binding.context?)`, factory invocation and store on miss. -/
def resolveSingleton : Nat → Container → Binding → String →
    Container × Except String Val
  | 0, c, _, _ => (c, Except.error "Out of fuel")
  | fuel+1, c, b, cacheKey =>
    let fullCacheKey := match b.context with
      | some bc => if bc = "" then cacheKey else cacheKey ++ "::" ++ bc
      | none => cacheKey
    match lookupA c.core.instances fullCacheKey with
    | some v => (c, Except.ok v)
    | none =>
      match invokeFactory fuel c b with
      | (c2, Except.ok v) =>
        (c2.setInstances (setA c2.core.instances fullCacheKey v), Except.ok v)
      | (c2, Except.error e) => (c2, Except.error e)

/-- `resolveScoped(binding, key)`: requires an attached scope; probe the
scope's instance map; on miss invoke the factory and store the instance
(with its dispose behavior) into the scope that is current after the
factory returned. -/
def resolveScoped : Nat → Container → Binding → String →
    Container × Except String Val
  | 0, c, _, _ => (c, Except.error "Out of fuel")
  | fuel+1, c, b, key =>
    match c.core.currentScope with
    | none => (c, Except.error ("No active scope for scoped binding: " ++ key ++
        ". Call createScope() first."))
    | some s =>
      match s.get key with
      | some v => (c, Except.ok v)
      | none =>
        match invokeFactory fuel c b with
        | (c2, Except.ok v) =>
          match c2.core.currentScope with
          | some s2 =>
            (c2.setScope (some (s2.set key v b.dispose)), Except.ok v)
          | none => (c2, Except.error "TypeError: Cannot read properties of undefined")
        | (c2, Except.error e) => (c2, Except.error e)

/-- Interpret a factory body against the container it was invoked with. -/
def evalFExpr : Nat → Container → FExpr → Container × Except String Val
  | 0, c, _ => (c, Except.error "Out of fuel")
  | fuel+1, c, e =>
    match e with
    | FExpr.const v => (c, Except.ok (Val.n v))
    | FExpr.fresh => (c.bumpFresh, Except.ok (Val.n c.core.freshCounter))
    | FExpr.failE msg => (c, Except.error msg)
    | FExpr.resolveKey k => resolve fuel c k none
    | FExpr.fromComposition k =>
      match searchComposed fuel c.composedContainers k with
      | (cs2, r) => (Container.node c.core c.parent cs2, r)

/-- The loop of `resolveFromComposition(key)`: scan the composed containers
in order, resolve from the first whose `has(key)` is true, otherwise throw
a missing-binding error. -/
def searchComposed : Nat → List Container → String →
    List Container × Except String Val
  | 0, cs, _ => (cs, Except.error "Out of fuel")
  | _+1, [], key => ([], Except.error ("No binding found for key: " ++ key))
  | fuel+1, ci :: rest, key =>
    match ci.has key with
    | (true, ci2) =>
      let (ci3, r) := resolve fuel ci2 key none
      (ci3 :: rest, r)
    | (false, ci2) =>
      let (cs2, r) := searchComposed fuel rest key
      (ci2 :: cs2, r)

end

/-- `static compose(containers)`: reject an empty list, record the composed
containers, and register a first-wins proxy transient binding for every key
in the union of the inputs' `keys()`. -/
def Container.compose (containers : List Container) : Except String Container :=
  if containers.isEmpty then
    Except.error "At least one container must be provided for composition"
  else
    let composed := Container.node ContainerCore.empty none containers
    let allKeys := dedupFirst (containers.map Container.keys).flatten
    Except.ok (allKeys.foldl
      (fun acc k => acc.bind k (FExpr.fromComposition k) none) composed)

/-- `n` successive calls of `container.resolve(key)` (no context), as in the
singleton testable property; returns the final container and the list of the
individual call results in order. -/
def resolveSeq (fuel : Nat) (c : Container) (key : String) :
    Nat → Container × List (Except String Val)
  | 0 => (c, [])
  | n+1 =>
    let (c2, r) := resolve fuel c key none
    let (c3, rs) := resolveSeq fuel c2 key n
    (c3, r :: rs)

/-- The `Lazy<T>` class (`Lazy.ts`).  The user thunk is arbitrary code; it
is abstracted as the outcome of its i-th invocation (`factory i`), with
`invocations` counting how often the thunk has been called. -/
structure LazyCell where
  factory : Nat → Except String Nat
  invocations : Nat
  value? : Option Nat
  initialized : Bool

/-- The `value` getter: if uninitialized, call the thunk; the assignment to
`_value` and the flag update happen only if the thunk returns normally
(a throw propagates before `_initialized = true` executes). -/
def LazyCell.valueGet (l : LazyCell) : Except String Nat × LazyCell :=
  if l.initialized then (Except.ok (l.value?.getD 0), l)
  else
    match l.factory l.invocations with
    | Except.error e =>
      (Except.error e, ⟨l.factory, l.invocations + 1, l.value?, false⟩)
    | Except.ok v =>
      (Except.ok v, ⟨l.factory, l.invocations + 1, some v, true⟩)

/-- The `isInitialized` getter. -/
def LazyCell.isInitialized (l : LazyCell) : Bool := l.initialized

/-! ### Concrete containers used by the verification scenarios -/

/-- Two-node cycle: `bind('A', c => c.resolve('B'))`,
`bind('B', c => c.resolve('A'))`. -/
def cCyc2 : Container :=
  (Container.empty.bind "A" (FExpr.resolveKey "B") none).bind "B"
    (FExpr.resolveKey "A") none

/-- Three-node cycle `A -> B -> C -> A`. -/
def cCyc3 : Container :=
  ((Container.empty.bind "A" (FExpr.resolveKey "B") none).bind "B"
    (FExpr.resolveKey "C") none).bind "C" (FExpr.resolveKey "A") none

/-- Acyclic chain `A -> B -> C` with terminal `C`. -/
def cAcyc : Container :=
  ((Container.empty.bind "A" (FExpr.resolveKey "B") none).bind "B"
    (FExpr.resolveKey "C") none).bind "C" (FExpr.const 7) none

/-- A container with a single unconditional, context-free singleton
binding whose factory creates a fresh instance. -/
def c4start : Container := Container.empty.singleton "K" FExpr.fresh none

/-- The container state after the first `resolve('K')` on `c4start`. -/
def c4one : Container := (resolve 9 c4start "K" none).1

/-- Default binding for `K` plus `when('X').needs('K').give(...)`. -/
def cCtx : Container :=
  (Container.empty.bind "K" (FExpr.const 1) none).whenNeedsGive "X" "K"
    (FExpr.const 2)

/-- `singleton('B', fresh)` then `alias('A', 'B')`. -/
def cAlias : Container :=
  (Container.empty.singleton "B" FExpr.fresh none).alias "A" "B"

/-- `alias('A', 'B')` with no binding for `B`. -/
def cAliasUnbound : Container := Container.empty.alias "A" "B"

/-- First composition input, binding `K` to 10. -/
def c7a : Container := Container.empty.bind "K" (FExpr.const 10) none

/-- Second composition input, binding `K` to 20. -/
def c7b : Container := Container.empty.bind "K" (FExpr.const 20) none

/-- A container with a scoped binding for `R` and a freshly created
scope attached. -/
def c8start : Container :=
  ((Container.empty.scoped "R" FExpr.fresh none).createScope).2

/-- State after the first scoped `resolve('R')`. -/
def c8afterFirst : Container := (resolve 9 c8start "R" none).1

/-- State after `scope.dispose()` on the attached scope. -/
def c8disposed : Container := (c8afterFirst.disposeCurrentScope).2

/-- Parent container binding `B` as a singleton. -/
def c9parent : Container := Container.empty.singleton "B" FExpr.fresh none

/-- Child of `c9parent` that registers `alias('A', 'B')` and has no
local binding for `B`. -/
def c9child : Container := (c9parent.createChild).alias "A" "B"

/-- A container whose binding-selection cache is non-empty (filled by
`has('K')` after `bind('K', ...)`). -/
def c2cached : Container :=
  ((Container.empty.bind "K" (FExpr.const 1) none).has "K").2

/-- A lazy cell whose thunk throws on its first invocation and returns
42 on the second. -/
def lazyEx : LazyCell :=
  ⟨fun i => if i = 0 then Except.error "boom" else Except.ok 42, 0, none, false⟩

/-! ### Structural helper lemmas -/

/-- Replacing the scalar state and projecting it back is the identity. -/
theorem core_withCore (c : Container) (co : ContainerCore) :
    (c.withCore co).core = co := by
  cases c
  rfl

/-- The resolution stack is unchanged by `setContext`. -/
theorem stack_setContext (c : Container) (v : Option String) :
    (c.setContext v).core.resolutionStack = c.core.resolutionStack := by
  cases c
  rfl

/-- The context field after `setContext`. -/
theorem ctx_setContext (c : Container) (v : Option String) :
    (c.setContext v).core.currentContext = v := by
  cases c
  rfl

/-- The resolution stack after a push. -/
theorem stack_pushStack (c : Container) (k : String) :
    (c.pushStack k).core.resolutionStack = c.core.resolutionStack ++ [k] := by
  cases c
  rfl

/-- The resolution stack after the `finally` block. -/
theorem stack_popRestore (c : Container) (p : Option String) :
    (c.popRestore p).core.resolutionStack = c.core.resolutionStack.dropLast := by
  cases c
  rfl

/-- The context field after the `finally` block. -/
theorem ctx_popRestore (c : Container) (p : Option String) :
    (c.popRestore p).core.currentContext = p := by
  cases c
  rfl

/-- The resolution stack is unchanged by the invocation counter. -/
theorem stack_bumpCalls (c : Container) :
    (c.bumpCalls).core.resolutionStack = c.core.resolutionStack := by
  cases c
  rfl

/-- The resolution stack is unchanged by an instance-store update. -/
theorem stack_setInstances (c : Container) (m : List (String × Val)) :
    (c.setInstances m).core.resolutionStack = c.core.resolutionStack := by
  cases c
  rfl

/-- The resolution stack is unchanged by a scope replacement. -/
theorem stack_setScope (c : Container) (v : Option Scope) :
    (c.setScope v).core.resolutionStack = c.core.resolutionStack := by
  cases c
  rfl

/-- The scope field after a scope replacement. -/
theorem scope_setScope (c : Container) (v : Option Scope) :
    (c.setScope v).core.currentScope = v := by
  cases c
  rfl

/-- `findBinding` only fills binding caches: it never touches the
resolution stack or the context of the container it was called on. -/
theorem findBinding_pres (c : Container) (key : String) (ctx : Option String) :
    ((c.findBinding key ctx).2).core.resolutionStack = c.core.resolutionStack ∧
    ((c.findBinding key ctx).2).core.currentContext = c.core.currentContext := by
  cases c with
  | node core parent composed =>
    rw [Container.findBinding.eq_def]
    dsimp only
    repeat' split
    all_goals exact ⟨rfl, rfl⟩

/-- `resolveLazy` only touches the instance store. -/
theorem resolveLazy_pres (c : Container) (b : Binding) (k : String) :
    ((c.resolveLazy b k).1).core.resolutionStack = c.core.resolutionStack := by
  rw [Container.resolveLazy.eq_def]
  dsimp only
  repeat' split
  all_goals rfl

/-- Joint frame invariant of the resolution engine, by induction on fuel:
every entry point leaves the resolution stack as it found it, and
`resolve` restores the context except on the missing-binding path, where
the context stays overwritten with `context || key`. -/
theorem stackInv : ∀ fuel : Nat,
    (∀ c key ctx,
      ((resolve fuel c key ctx).1).core.resolutionStack = c.core.resolutionStack ∧
      (((resolve fuel c key ctx).1).core.currentContext = c.core.currentContext ∨
        ((resolve fuel c key ctx).2 =
            Except.error ("No binding found for key: " ++
              jsOr (lookupA c.core.aliases key) key) ∧
          ((resolve fuel c key ctx).1).core.currentContext =
            some (jsOr ctx key)))) ∧
    (∀ c b k, ((dispatchLifecycle fuel c b k).1).core.resolutionStack =
      c.core.resolutionStack) ∧
    (∀ c b, ((invokeFactory fuel c b).1).core.resolutionStack =
      c.core.resolutionStack) ∧
    (∀ c b, ((resolveTransient fuel c b).1).core.resolutionStack =
      c.core.resolutionStack) ∧
    (∀ c b k, ((resolveSingleton fuel c b k).1).core.resolutionStack =
      c.core.resolutionStack) ∧
    (∀ c b k, ((resolveScoped fuel c b k).1).core.resolutionStack =
      c.core.resolutionStack) ∧
    (∀ c e, ((evalFExpr fuel c e).1).core.resolutionStack =
      c.core.resolutionStack) := by
  intro fuel
  induction fuel with
  | zero =>
    exact ⟨fun c key ctx => ⟨rfl, Or.inl rfl⟩, fun c b k => rfl, fun c b => rfl,
      fun c b => rfl, fun c b k => rfl, fun c b k => rfl, fun c e => rfl⟩
  | succ fuel ih =>
    obtain ⟨ihRes, ihDisp, ihInv, ihTrans, ihSing, ihScoped, ihEval⟩ := ih
    refine ⟨?_, ?_, ?_, ?_, ?_, ?_, ?_⟩
    · intro c key ctx
      rw [resolve]
      dsimp only
      split
      · exact ⟨rfl, Or.inl rfl⟩
      · split
        · next c2 heq =>
          have hp := findBinding_pres
            (c.setContext (some (jsOr ctx key))) key (some (jsOr ctx key))
          rw [heq] at hp
          refine ⟨hp.1.trans (stack_setContext c _), Or.inr ⟨rfl, ?_⟩⟩
          exact hp.2.trans (ctx_setContext c _)
        · next b c2 heq =>
          have hp := findBinding_pres
            (c.setContext (some (jsOr ctx key))) key (some (jsOr ctx key))
          rw [heq] at hp
          rcases hd : dispatchLifecycle fuel
              (c2.pushStack (jsOr (lookupA c.core.aliases key) key)) b
              (jsOr (lookupA c.core.aliases key) key) with ⟨c4, res⟩
          have hds := ihDisp (c2.pushStack (jsOr (lookupA c.core.aliases key) key))
            b (jsOr (lookupA c.core.aliases key) key)
          rw [hd] at hds
          refine ⟨?_, Or.inl ?_⟩
          · rw [stack_popRestore, hds, stack_pushStack, List.dropLast_concat]
            exact hp.1.trans (stack_setContext c _)
          · rw [ctx_popRestore]
    · intro c b k
      rw [dispatchLifecycle]
      split
      · exact resolveLazy_pres c b k
      · split
        · exact ihSing c b k
        · exact ihScoped c b k
        · exact ihTrans c b
    · intro c b
      rw [invokeFactory]
      exact (ihEval _ _).trans (stack_bumpCalls c)
    · intro c b
      rw [resolveTransient]
      exact ihInv c b
    · intro c b k
      rw [resolveSingleton]
      try dsimp only
      split
      · rfl
      · split
        · next c2 v heq =>
          have hi := ihInv c b
          rw [heq] at hi
          exact hi
        · next c2 e heq =>
          have hi := ihInv c b
          rw [heq] at hi
          exact hi
    · intro c b k
      rw [resolveScoped]
      split
      · rfl
      · split
        · rfl
        · split
          · next c2 v heq =>
            have hi := ihInv c b
            rw [heq] at hi
            split
            · exact hi
            · exact hi
          · next c2 e heq =>
            have hi := ihInv c b
            rw [heq] at hi
            exact hi
    · intro c e
      rw [evalFExpr.eq_def]
      dsimp only
      split
      · rfl
      · rfl
      · rfl
      · exact (ihRes _ _ _).1
      · next k =>
        rcases hs : searchComposed fuel c.composedContainers k with ⟨cs2, r⟩
        rfl

set_option smartUnfolding false in
/-- The first `resolve('K')` on the singleton container reaches the state
`c4one` and yields instance 0. -/
theorem c4first : resolve 9 c4start "K" none = (c4one, Except.ok (Val.n 0)) := rfl

set_option smartUnfolding false in
/-- Resolving `K` again from `c4one` is a no-op on the state: the binding
cache and the instance store are both hit. -/
theorem c4fix : resolve 9 c4one "K" none = (c4one, Except.ok (Val.n 0)) := rfl

/-- Any number of further resolves from `c4one` return the cached
instance and leave the state fixed. -/
theorem c4seq (m : Nat) :
    resolveSeq 9 c4one "K" m = (c4one, List.replicate m (Except.ok (Val.n 0))) := by
  induction m with
  | zero => rfl
  | succ m ih =>
    rw [resolveSeq]
    dsimp only
    rw [c4fix]
    dsimp only
    rw [ih]
    rfl

/-! ### Claim theorems -/

set_option smartUnfolding false in
/-- C1 (counterexample): on the missing-binding exit path of `resolve`,
the current-context field is not restored to its entry value — resolving
the unbound key `K` on a fresh container leaves `currentContext` set to
`some "K"` although it was `none` at entry. -/
theorem resolve_context_clobbered_cex :
    (resolve 9 Container.empty "K" none).2 =
      Except.error "No binding found for key: K" ∧
    Container.empty.core.currentContext = none ∧
    (resolve 9 Container.empty "K" none).1.core.currentContext ≠
      Container.empty.core.currentContext := by
  refine ⟨rfl, rfl, by decide⟩

/-- C1 (amended): for every call `resolve(key, context?)`, the resolution
stack is restored on every exit path; the current context is restored on
every exit path except the missing-binding failure, where it is left
overwritten with `context || key`. -/
theorem resolve_frame_amended (fuel : Nat) (c : Container) (key : String)
    (ctx : Option String) :
    ((resolve fuel c key ctx).1).core.resolutionStack = c.core.resolutionStack ∧
    (((resolve fuel c key ctx).1).core.currentContext = c.core.currentContext ∨
      ((resolve fuel c key ctx).2 =
          Except.error ("No binding found for key: " ++
            jsOr (lookupA c.core.aliases key) key) ∧
        ((resolve fuel c key ctx).1).core.currentContext = some (jsOr ctx key))) :=
  (stackInv fuel).1 c key ctx

set_option smartUnfolding false in
/-- C2 (counterexample): `alias` does not clear the binding-selection
cache — after filling the cache via `has('K')` and then calling
`alias('AL', 'K')`, the cache is still non-empty. -/
theorem alias_cache_cex :
    c2cached.core.bindingCache ≠ [] ∧
    ¬ ((c2cached.alias "AL" "K").core.bindingCache = []) := by
  constructor
  · decide
  · decide

/-- C2 (amended): each of `bind`, `singleton`, `scoped`, `lazy` and
`when(...).needs(...).give(...)` leaves the binding-selection cache empty,
while `alias` leaves the cache exactly as it was. -/
theorem registration_clears_cache_amended (c : Container) (key k2 : String)
    (f : FExpr) (cond : Option Bool) (d : Option (Except String Unit))
    (lc : Lifecycle) :
    (c.bind key f cond).core.bindingCache = [] ∧
    (Container.singleton c key f cond).core.bindingCache = [] ∧
    (c.scoped key f d).core.bindingCache = [] ∧
    (Container.lazy c key f lc).core.bindingCache = [] ∧
    (c.whenNeedsGive k2 key f).core.bindingCache = [] ∧
    (c.alias key k2).core.bindingCache = c.core.bindingCache := by
  refine ⟨?_, ?_, ?_, ?_, ?_, ?_⟩ <;>
    simp [Container.bind, Container.singleton, Container.scoped, Container.lazy,
      Container.whenNeedsGive, Container.alias, core_withCore]

set_option smartUnfolding false in
/-- C3: the two-node cycle fails with chain `A -> B -> A`, the three-node
cycle with `A -> B -> C -> A`, and the acyclic chain `A -> B -> C`
resolves without error. -/
theorem circular_chain_messages :
    (resolve 30 cCyc2 "A" none).2 =
      Except.error "Circular dependency detected: A -> B -> A" ∧
    (resolve 30 cCyc3 "A" none).2 =
      Except.error "Circular dependency detected: A -> B -> C -> A" ∧
    (resolve 30 cAcyc "A" none).2 = Except.ok (Val.n 7) := by
  refine ⟨rfl, rfl, rfl⟩

/-- C4: resolving a singleton-bound key `n` times returns the identical
instance on every call and invokes the factory exactly once (zero times
for `n = 0`), on the first call. -/
theorem singleton_resolve_idempotent (n : Nat) :
    (resolveSeq 9 c4start "K" n).2 = List.replicate n (Except.ok (Val.n 0)) ∧
    (resolveSeq 9 c4start "K" n).1.core.calls = min n 1 := by
  cases n with
  | zero => exact ⟨rfl, rfl⟩
  | succ n =>
    rw [resolveSeq]
    dsimp only
    rw [c4first]
    dsimp only
    rw [c4seq n]
    constructor
    · rfl
    · show c4one.core.calls = min (n + 1) 1
      have h1 : c4one.core.calls = 1 := rfl
      rw [h1]
      omega

/-- C5: with a default binding for `K` and a contextual binding
`when('X').needs('K').give(...)`, `resolve('K', 'X')` yields the
contextual value, `resolve('K')` the default, and `resolve('K', y)`
for any other context `y` also the default. -/
theorem contextual_priority (y : String) (hy : y ≠ "X") :
    (resolve 9 cCtx "K" (some "X")).2 = Except.ok (Val.n 2) ∧
    (resolve 9 cCtx "K" none).2 = Except.ok (Val.n 1) ∧
    (resolve 9 cCtx "K" (some y)).2 = Except.ok (Val.n 1) := by
  refine ⟨rfl, rfl, ?_⟩
  by_cases hE : y = ""
  · subst hE
    rfl
  · have hxy : ("X" = y) = False := by simp [Ne.symm hy]
    have hyE : (y = "") = False := by simp [hE]
    simp only [resolve, dispatchLifecycle, invokeFactory, resolveTransient,
      resolveSingleton, resolveScoped, Container.resolveLazy, evalFExpr,
      Container.findBinding, lookupA, setA, jsOr, condOk, findFirst,
      Container.core, Container.withCore, Container.setContext,
      Container.pushStack, Container.popRestore, Container.bumpCalls,
      Container.setInstances, Container.parent, Container.composedContainers,
      Container.bind, Container.whenNeedsGive, Container.empty,
      ContainerCore.empty, cCtx, hxy, hyE, decide_True, decide_False,
      Option.some.injEq, Bool.false_and, Bool.true_and, Bool.and_false,
      Bool.and_true, if_true, if_false, ite_true, ite_false, Option.orElse,
      Option.getD, List.contains, List.elem, List.head?, List.isEmpty,
      List.nil_append, List.cons_append, List.append_nil, List.dropLast_concat,
      String.reduceEq, reduceIte, decide_eq_true_eq, Bool.false_eq_true,
      Bool.true_eq_false, reduceCtorEq, Option.some_ne_none, ne_eq,
      String.intercalate, String.reduceAppend]

/-- C5 (witness): the context `"Y"` differs from `"X"` and the three
resolution results are as claimed. -/
theorem contextual_priority_witness :
    ("Y" : String) ≠ "X" ∧
    ((resolve 9 cCtx "K" (some "X")).2 = Except.ok (Val.n 2) ∧
      (resolve 9 cCtx "K" none).2 = Except.ok (Val.n 1) ∧
      (resolve 9 cCtx "K" (some "Y")).2 = Except.ok (Val.n 1)) :=
  ⟨by decide, contextual_priority "Y" (by decide)⟩

set_option smartUnfolding false in
/-- C6: with `alias('A', 'B')` and a singleton binding for `B`,
`resolve('A')` and a following `resolve('B')` return the identical
instance with one factory invocation in total; with no binding for `B`,
both fail with the same missing-binding error naming `B`. -/
theorem alias_resolution_law :
    (resolve 9 cAlias "A" none).2 = Except.ok (Val.n 0) ∧
    (resolve 9 (resolve 9 cAlias "A" none).1 "B" none).2 = Except.ok (Val.n 0) ∧
    (resolve 9 (resolve 9 cAlias "A" none).1 "B" none).1.core.calls = 1 ∧
    (resolve 9 cAliasUnbound "A" none).2 =
      Except.error "No binding found for key: B" ∧
    (resolve 9 cAliasUnbound "B" none).2 =
      Except.error "No binding found for key: B" := by
  refine ⟨rfl, rfl, rfl, rfl, rfl⟩

set_option smartUnfolding false in
/-- C7: composing `[c7a, c7b]` (both binding `K`) resolves `K` to the
first container's value; swapping the order yields the second value,
showing the proxy searches the inputs in list order. -/
theorem compose_first_wins :
    (Container.compose [c7a, c7b]).map (fun cc => (resolve 30 cc "K" none).2) =
      Except.ok ((resolve 30 c7a "K" none).2) ∧
    (resolve 30 c7a "K" none).2 = Except.ok (Val.n 10) ∧
    (Container.compose [c7b, c7a]).map (fun cc => (resolve 30 cc "K" none).2) =
      Except.ok (Except.ok (Val.n 20)) := by
  refine ⟨rfl, rfl, rfl⟩

set_option smartUnfolding false in
/-- C8: after disposing the current scope, the (now empty) scope remains
attached to the container; a subsequent scoped resolve does not raise a
no-active-scope error but invokes the factory again and stores the new
instance into the already-disposed scope. -/
theorem disposed_scope_still_current (c : Container) (s : Scope)
    (hs : c.core.currentScope = some s)
    (hd : runDisposables s.disposables = Except.ok ()) :
    ((c.disposeCurrentScope).1 = Except.ok () ∧
      (c.disposeCurrentScope).2.core.currentScope = some ⟨[], []⟩) ∧
    ((resolve 9 c8disposed "R" none).2 = Except.ok (Val.n 1) ∧
      (resolve 9 c8disposed "R" none).1.core.calls = 2 ∧
      (resolve 9 c8disposed "R" none).1.core.currentScope =
        some ⟨[("R", Val.n 1)], []⟩) := by
  have hdisp : s.dispose = (Except.ok (), ⟨[], []⟩) := by
    rw [Scope.dispose, hd]
  rw [Container.disposeCurrentScope.eq_def, hs]
  dsimp only
  rw [hdisp]
  exact ⟨⟨rfl, by cases c; rfl⟩, rfl, rfl, rfl⟩

set_option smartUnfolding false in
/-- C8 (witness): the scenario container after one scoped resolve has a
scope holding instance 0 with no dispose callbacks; disposing it and
resolving again behaves as claimed. -/
theorem disposed_scope_still_current_witness :
    c8afterFirst.core.currentScope = some ⟨[("R", Val.n 0)], []⟩ ∧
    runDisposables (Scope.mk [("R", Val.n 0)] []).disposables = Except.ok () ∧
    (((c8afterFirst.disposeCurrentScope).1 = Except.ok () ∧
        (c8afterFirst.disposeCurrentScope).2.core.currentScope = some ⟨[], []⟩) ∧
      ((resolve 9 c8disposed "R" none).2 = Except.ok (Val.n 1) ∧
        (resolve 9 c8disposed "R" none).1.core.calls = 2 ∧
        (resolve 9 c8disposed "R" none).1.core.currentScope =
          some ⟨[("R", Val.n 1)], []⟩)) :=
  ⟨rfl, rfl, disposed_scope_still_current c8afterFirst ⟨[("R", Val.n 0)], []⟩ rfl rfl⟩

set_option smartUnfolding false in
/-- C9: a child whose alias `A -> B` points at a key bound only in the
parent fails to resolve `A` with a missing-binding error naming `B`: the
parent lookup re-resolves the original key `A` through its own (empty)
alias table.  The parent itself resolves `B` fine. -/
theorem child_alias_parent_missing :
    (resolve 9 c9parent "B" none).2 = Except.ok (Val.n 0) ∧
    (resolve 9 c9child "A" none).2 =
      Except.error "No binding found for key: B" := by
  refine ⟨rfl, rfl⟩

/-- C10: if the thunk of an uninitialized `Lazy` throws on a value
access, the error propagates, the cell stays uninitialized with its value
slot unchanged, and the next access invokes the thunk again; the
initialized flag only flips when the thunk returns normally. -/
theorem lazy_failed_init_retries (l : LazyCell) (e : String) (v : Nat)
    (hinit : l.initialized = false)
    (h1 : l.factory l.invocations = Except.error e)
    (h2 : l.factory (l.invocations + 1) = Except.ok v) :
    (l.valueGet).1 = Except.error e ∧
    (l.valueGet).2.isInitialized = false ∧
    (l.valueGet).2.value? = l.value? ∧
    (l.valueGet).2.invocations = l.invocations + 1 ∧
    ((l.valueGet).2.valueGet).1 = Except.ok v ∧
    ((l.valueGet).2.valueGet).2.isInitialized = true := by
  simp [LazyCell.valueGet, LazyCell.isInitialized, hinit, h1, h2]

/-- C10 (witness): the concrete cell `lazyEx` satisfies the hypotheses
and the claimed behavior. -/
theorem lazy_failed_init_retries_witness :
    lazyEx.initialized = false ∧
    lazyEx.factory lazyEx.invocations = Except.error "boom" ∧
    lazyEx.factory (lazyEx.invocations + 1) = Except.ok 42 ∧
    ((lazyEx.valueGet).1 = Except.error "boom" ∧
      (lazyEx.valueGet).2.isInitialized = false ∧
      (lazyEx.valueGet).2.value? = lazyEx.value? ∧
      (lazyEx.valueGet).2.invocations = lazyEx.invocations + 1 ∧
      ((lazyEx.valueGet).2.valueGet).1 = Except.ok 42 ∧
      ((lazyEx.valueGet).2.valueGet).2.isInitialized = true) :=
  ⟨rfl, rfl, rfl, lazy_failed_init_retries lazyEx "boom" 42 rfl rfl rfl⟩
